import Mathlib

/-!
Verification of the map update & snapshot pipeline of
`custom_components/valetudo_vacuum_camera/camera.py` (class `ValetudoCamera`).

The external collaborators (MQTT connector, map renderer, filesystem) are
modelled as per-cycle oracle inputs (`CycleInput`): each field holds the value
the corresponding external call returns during that `update()` cycle.
Python attribute semantics are modelled explicitly: fields that may be read
before they are ever assigned (`_image`, `_snapshot_taken`, `_last_image`)
are `Option (Option _)` — the outer `none` means "attribute not yet bound"
(reading it raises `AttributeError`), the inner `none` is Python's `None`
value.  `update` returns `Except String (Option EncodedImage × CameraState)`:
`Except.error` is an uncaught exception, `Except.ok (none, s)` is Python's
implicit `return None` (falling off the end of the function).
-/

/-- Opaque parsed telemetry payload (`parsed_json`). -/
abbrev Payload := String

/-- A position `(x, y)` as returned by the map handler. -/
abbrev Pos := Int × Int

/-- An image size `(w, h)` as returned by the map handler. -/
abbrev ImgSize := Int × Int

/-- A calibration-point set as returned by `get_calibration_data`. -/
abbrev Calib := List (Int × Int)

/-- PIL bitmaps, kept symbolic: a rendered map, a rotation of a bitmap
(`pil_img.rotate`), or a freshly created flat image (`Image.new`). -/
inductive Bitmap where
  | rendered (id : Nat)
  | rotated (b : Bitmap) (deg : Int)
  | newRGB (w h : Nat) (color : String)
  deriving DecidableEq, Repr

/-- PNG-encoded bytes of a bitmap (`pil_img.save(buffered, format="PNG")`
followed by `buffered.getvalue()`); encoding itself is out of scope, so the
bytes are represented by the bitmap they encode. -/
inductive EncodedImage where
  | png (b : Bitmap)
  deriving DecidableEq, Repr

/-- Result of `self._mqtt.update_data()` : either a `ValueError`
(parse failure) or a payload that may be Python `None`. -/
inductive FetchResult where
  | parseError
  | ok (payload : Option Payload)
  deriving DecidableEq, Repr

/-- The values the external collaborators return during one `update()` cycle. -/
structure CycleInput where
  /-- `self._mqtt.is_data_available()` -/
  dataAvailable : Bool
  /-- `self._mqtt.update_data()` -/
  fetchResult : FetchResult
  /-- `self._map_handler.get_image_from_json(parsed_json, self._image_crop)` -/
  renderResult : Option Bitmap
  /-- `self._map_handler.get_json_id()` -/
  jsonId : Option String
  /-- `self._map_handler.get_charger_position()` -/
  charger : Option Pos
  /-- `self._map_handler.get_robot_position()` -/
  robot : Option Pos
  /-- `self._map_handler.get_img_size()` -/
  imgSize : Option ImgSize
  /-- `self._map_handler.get_calibration_data(self._image_rotate)` -/
  calibData : Option Calib
  /-- `self._mqtt.get_vacuum_status()` -/
  busStatus : Option String
  /-- whether the snapshot write block (`save_payload`, json write, png save)
  completes without raising `IOError` -/
  saveOk : Bool
  /-- `os.path.isfile(snapshot_path)` in `empty_if_no_data` -/
  snapshotFileExists : Bool
  /-- `Image.open(snapshot_path)` in `empty_if_no_data` -/
  snapshotFileContent : Bitmap
  deriving DecidableEq, Repr

/-- The mutable attributes of a `ValetudoCamera` instance that the update
pipeline reads or writes.  `image`, `snapshot_taken` and `last_image` use
`Option (Option _)`: outer `none` = attribute unbound, inner `none` =
Python `None`. -/
structure CameraState where
  /-- `self._vacuum_state` -/
  vacuum_state : Option String
  /-- `self._vac_img_data` -/
  vac_img_data : Option ImgSize
  /-- `self._vac_json_data` ("Success" / "Error" / None) -/
  vac_json_data : Option String
  /-- `self._vac_json_id` -/
  vac_json_id : Option String
  /-- `self._calibration_points` -/
  calibration_points : Option Calib
  /-- `self._base` (charger position) -/
  base : Option Pos
  /-- `self._current` (robot position) -/
  current : Option Pos
  /-- `self._image` (encoded bytes) -/
  image : Option (Option EncodedImage)
  /-- `self._snapshot_taken` (True / False / None after IOError) -/
  snapshot_taken : Option (Option Bool)
  /-- `self._last_image` (last decoded bitmap) -/
  last_image : Option (Option Bitmap)
  /-- `self._image_rotate` -/
  image_rotate : Int
  /-- `self._image_crop` -/
  image_crop : Int
  deriving DecidableEq, Repr

/-- The fixed path `empty_if_no_data` loads the durable snapshot from. -/
def snapshot_path : String :=
  "/config/custom_components/valetudo_vacuum_camera/snapshots/valetudo_snapshot.png"

/-- The fixed path `update` writes the snapshot PNG to (`pil_img.save(...)`),
relative to the process working directory. -/
def snapshot_write_png_path : String :=
  "custom_components/valetudo_vacuum_camera/snapshots/valetudo_snapshot.png"

/-- The fixed path `update` writes the raw JSON payload to. -/
def snapshot_write_json_path : String :=
  "custom_components/valetudo_vacuum_camera/snapshots/valetudo_json"

/-- `self._vacuum_state == "idle" or self._vacuum_state == "docked" or
self._vacuum_state == "error"` (Python `None` compares unequal to all). -/
def isTerminal (st : Option String) : Bool :=
  st == some "idle" || st == some "docked" || st == some "error"

/-- `ValetudoCamera.empty_if_no_data`.  Reads `self._last_image` (raising
`AttributeError` when unbound); prefers the in-memory bitmap, then the
snapshot file (cached into `self._last_image`), then a fresh gray 800×600
image. -/
def empty_if_no_data (s : CameraState) (inp : CycleInput) :
    Except String (Bitmap × CameraState) :=
  match s.last_image with
  | none => Except.error "AttributeError"
  | some (some img) => Except.ok (img, s)
  | some none =>
      if inp.snapshotFileExists then
        Except.ok (inp.snapshotFileContent,
          { s with last_image := some (some inp.snapshotFileContent) })
      else
        Except.ok (Bitmap.newRGB 800 600 "gray", s)

/-- Common tail of a data cycle (source lines 254-263): store the bitmap in
`self._last_image`, encode it to PNG bytes stored in `self._image`, then
refresh `self._vacuum_state` from the bus client. -/
def finishCycle (s : CameraState) (inp : CycleInput) (pil : Bitmap) :
    Option EncodedImage × CameraState :=
  let bytesData := EncodedImage.png pil
  (some bytesData,
    { s with last_image := some (some pil),
             image := some (some bytesData),
             vacuum_state := inp.busStatus })

/-- `ValetudoCamera.update`.  Follows the source control flow exactly:
`return self._image` sits inside the `try/except/else`'s `else` block, so a
cycle with no data available, or a `ValueError` from `update_data()`, falls
off the end of the function and returns Python `None`. -/
def update (s : CameraState) (inp : CycleInput) :
    Except String (Option EncodedImage × CameraState) :=
  if inp.dataAvailable then
    match inp.fetchResult with
    | FetchResult.parseError =>
        -- `except ValueError:` sets the outcome, then control falls off the
        -- end of `update` (the `else:` block is skipped): implicit `None`.
        Except.ok (none, { s with vac_json_data := some "Error" })
    | FetchResult.ok parsedJson =>
        let s0 := { s with vac_json_data := some "Success" }
        match parsedJson with
        | none =>
            -- `else: _LOGGER.info(...)` then `return self._image`.
            match s0.image with
            | none => Except.error "AttributeError"
            | some img => Except.ok (img, s0)
        | some _ =>
            match inp.renderResult with
            | some pil0 =>
                let pil := Bitmap.rotated pil0 s0.image_rotate
                match s0.snapshot_taken with
                | none => Except.error "AttributeError"
                | some snap =>
                    let s1 :=
                      if !(snap == some true) && isTerminal s0.vacuum_state then
                        -- `self._snapshot_taken = True` precedes the writes;
                        -- `except IOError:` then sets it to Python `None`.
                        if inp.saveOk then
                          { s0 with snapshot_taken := some (some true) }
                        else
                          { s0 with snapshot_taken := some none }
                      else s0
                    let s2 := { s1 with
                                vac_json_id := inp.jsonId,
                                base := inp.charger,
                                current := inp.robot,
                                vac_img_data := inp.imgSize,
                                calibration_points := inp.calibData }
                    Except.ok (finishCycle s2 inp pil)
            | none =>
                match empty_if_no_data s0 inp with
                | Except.error e => Except.error e
                | Except.ok (pil, s1) => Except.ok (finishCycle s1 inp pil)
  else
    -- `if process_data:` not taken: fall off the end, implicit `return None`.
    Except.ok (none, s)

/-- Attribute values right before `self._image = self.update()` runs in
`__init__`: `_image`, `_snapshot_taken` and `_last_image` are not yet bound. -/
def preInitState (r c : Int) : CameraState :=
  { vacuum_state := none, vac_img_data := none, vac_json_data := none,
    vac_json_id := none, calibration_points := none, base := none,
    current := none, image := none, snapshot_taken := none,
    last_image := none, image_rotate := r, image_crop := c }

/-- The remainder of `__init__` after the first `update()` call: bind
`self._image` to its return value, `self._snapshot_taken = False`,
`self._last_image = None`. -/
def construct (r c : Int) (inp : CycleInput) : Except String CameraState :=
  match update (preInitState r c) inp with
  | Except.error e => Except.error e
  | Except.ok (ret, s) =>
      Except.ok { s with image := some ret,
                         snapshot_taken := some (some false),
                         last_image := some none }

/-- The state right after a construction whose first `update()` cycle saw no
data available (the only fully attribute-error-free construction). -/
def initState (r c : Int) : CameraState :=
  { vacuum_state := none, vac_img_data := none, vac_json_data := none,
    vac_json_id := none, calibration_points := none, base := none,
    current := none, image := some none, snapshot_taken := some (some false),
    last_image := some none, image_rotate := r, image_crop := c }

/-- Run `update` over a list of cycle inputs, collecting the returned values;
stops at the first uncaught exception. -/
def run (s : CameraState) :
    List CycleInput → Except String (List (Option EncodedImage) × CameraState)
  | [] => Except.ok ([], s)
  | inp :: rest =>
      match update s inp with
      | Except.error e => Except.error e
      | Except.ok (out, s') =>
          match run s' rest with
          | Except.error e => Except.error e
          | Except.ok (outs, sf) => Except.ok (out :: outs, sf)

/-- Whether the cycle `update s inp` enters the snapshot-write `try` block
(source lines 218-233): data is available, the payload parses to a non-None
value, the renderer yields a bitmap, `self._snapshot_taken` is bound and not
`True`, and the stored `self._vacuum_state` is terminal. -/
def snapshotAttempted (s : CameraState) (inp : CycleInput) : Bool :=
  inp.dataAvailable &&
  (match inp.fetchResult with
   | FetchResult.ok (some _) => true
   | _ => false) &&
  inp.renderResult.isSome &&
  (match s.snapshot_taken with
   | none => false
   | some snap => !(snap == some true) && isTerminal s.vacuum_state)

/-- Whether the cycle `update s inp` actually renders a map (reaches the
`pil_img is not None` branch). -/
def renderedCycle (inp : CycleInput) : Bool :=
  inp.dataAvailable &&
  (match inp.fetchResult with
   | FetchResult.ok (some _) => true
   | _ => false) &&
  inp.renderResult.isSome

/-! ### Concrete sample states and inputs used in closed theorems -/

/-- A cycle input with no data available (every other oracle field inert). -/
def noDataInput : CycleInput :=
  { dataAvailable := false, fetchResult := FetchResult.ok none,
    renderResult := none, jsonId := none, charger := none, robot := none,
    imgSize := none, calibData := none, busStatus := none, saveOk := true,
    snapshotFileExists := false, snapshotFileContent := Bitmap.rendered 0 }

/-- A cycle input whose payload fetch raises `ValueError`. -/
def parseErrorInput : CycleInput :=
  { noDataInput with dataAvailable := true,
                     fetchResult := FetchResult.parseError }

/-- A cycle input that successfully renders map `n`, reports bus status
"docked", and whose snapshot write succeeds iff `ok`. -/
def renderInput (n : Nat) (ok : Bool) : CycleInput :=
  { dataAvailable := true, fetchResult := FetchResult.ok (some "payload"),
    renderResult := some (Bitmap.rendered n), jsonId := some "map-id",
    charger := some (1, 2), robot := some (3, 4), imgSize := some (800, 600),
    calibData := some [(0, 0), (10, 10)], busStatus := some "docked",
    saveOk := ok, snapshotFileExists := false,
    snapshotFileContent := Bitmap.rendered 0 }

/-- Sample PNG bytes cached from an earlier cycle. -/
def sampleBytes : EncodedImage := EncodedImage.png (Bitmap.rendered 7)

/-! ### Shared lemmas -/

/-- On a cycle with no data available, `update` leaves the state untouched
and returns Python `None`. -/
theorem update_no_data (s : CameraState) (inp : CycleInput)
    (h : inp.dataAvailable = false) :
    update s inp = Except.ok (none, s) := by
  simp [update, h]

/-- On a cycle whose payload fetch raises `ValueError`, `update` records the
"Error" outcome and returns Python `None`. -/
theorem update_parse_error (s : CameraState) (inp : CycleInput)
    (h1 : inp.dataAvailable = true)
    (h2 : inp.fetchResult = FetchResult.parseError) :
    update s inp = Except.ok (none, { s with vac_json_data := some "Error" }) := by
  simp [update, h1, h2]

/-- Running any sequence of no-data cycles returns `None` every cycle and
leaves the state untouched. -/
theorem run_no_data (inputs : List CycleInput)
    (h : ∀ i ∈ inputs, i.dataAvailable = false) (s : CameraState) :
    run s inputs = Except.ok (inputs.map (fun _ => none), s) := by
  induction inputs generalizing s with
  | nil => rfl
  | cons a rest ih =>
      have ha : a.dataAvailable = false := h a (List.mem_cons_self a rest)
      have hrest : ∀ i ∈ rest, i.dataAvailable = false :=
        fun i hi => h i (List.mem_cons_of_mem a hi)
      simp [run, update_no_data _ _ ha, ih hrest]

/-! ### C2 -/

/-- C2 (counterexample): on a cycle where `is_data_available()` is false and
the cached `_image` holds PNG bytes from an earlier cycle, `update` returns
Python `None`, not those cached bytes — refuting "returns output
byte-identical to the prior cycle's result". -/
theorem C2_counterexample :
    update { initState 0 50 with image := some (some sampleBytes) } noDataInput
      = Except.ok (none, { initState 0 50 with image := some (some sampleBytes) })
    ∧ (none : Option EncodedImage) ≠ some sampleBytes := by
  exact ⟨rfl, by simp⟩

/-- C2 (amended): on every cycle where `is_data_available()` is false,
`update` performs no state mutation — every attribute, including the cached
`_image` bytes, is left exactly as it was — but it returns Python `None`
(control falls off the end of the function), not the cached image bytes. -/
theorem C2_no_data_cycle (s : CameraState) (inp : CycleInput)
    (h : inp.dataAvailable = false) :
    update s inp = Except.ok (none, s) := by
  simp [update, h]

/-- C2 witness: the amended theorem applied to a concrete state and input. -/
theorem C2_no_data_cycle_witness :
    noDataInput.dataAvailable = false
    ∧ update (initState 0 50) noDataInput = Except.ok (none, initState 0 50) :=
  ⟨rfl, C2_no_data_cycle (initState 0 50) noDataInput rfl⟩

/-! ### C3 -/

/-- C3 (counterexample): on a cycle whose payload fetch raises `ValueError`
while the cache holds PNG bytes from an earlier cycle, `update` records
ingestion outcome "Error" but returns Python `None`, not the previous
cycle's image bytes — refuting "returns the same image bytes as the
previous cycle". -/
theorem C3_counterexample :
    update { initState 0 50 with image := some (some (EncodedImage.png (Bitmap.rendered 9))) }
        parseErrorInput
      = Except.ok (none,
          { initState 0 50 with
              image := some (some (EncodedImage.png (Bitmap.rendered 9))),
              vac_json_data := some "Error" })
    ∧ (none : Option EncodedImage) ≠ some (EncodedImage.png (Bitmap.rendered 9)) := by
  exact ⟨rfl, by simp⟩

/-- C3 (amended): on every cycle whose payload fetch raises a parse error,
`update` records ingestion outcome "Error" and returns Python `None`; the
previously cached image bytes stay stored in `_image` but are not returned. -/
theorem C3_parse_error_cycle (s : CameraState) (inp : CycleInput)
    (h1 : inp.dataAvailable = true) (h2 : inp.fetchResult = FetchResult.parseError) :
    update s inp = Except.ok (none, { s with vac_json_data := some "Error" })
    ∧ ({ s with vac_json_data := some "Error" } : CameraState).image = s.image := by
  refine ⟨?_, rfl⟩
  simp [update, h1, h2]

/-- C3 witness: the amended theorem applied to a concrete state and input. -/
theorem C3_parse_error_cycle_witness :
    parseErrorInput.dataAvailable = true
    ∧ parseErrorInput.fetchResult = FetchResult.parseError
    ∧ update (initState 0 50) parseErrorInput
        = Except.ok (none, { initState 0 50 with vac_json_data := some "Error" }) :=
  ⟨rfl, rfl, (C3_parse_error_cycle (initState 0 50) parseErrorInput rfl rfl).1⟩

/-! ### C4 -/

/-- C4 (counterexample): a freshly constructed pipeline that never receives a
payload returns `None` ("no image") on every cycle — not an 800×600
placeholder bitmap — refuting "update() and camera_image never return
no image" and "returns an 800×600 placeholder image on every cycle". -/
theorem C4_counterexample :
    run (initState 0 50) [noDataInput, noDataInput]
      = Except.ok ([none, none], initState 0 50)
    ∧ (none : Option EncodedImage)
        ≠ some (EncodedImage.png (Bitmap.newRGB 800 600 "gray")) := by
  exact ⟨rfl, by simp⟩

/-- C4 (amended): if no payload is ever received, every `update` cycle
returns Python `None` (no image at all, rather than an 800×600 placeholder
bitmap) and the whole state — in particular the ingestion outcome, which
starts unset — is left untouched. -/
theorem C4_no_payload_run (r c : Int) (inputs : List CycleInput)
    (h : ∀ i ∈ inputs, i.dataAvailable = false) :
    run (initState r c) inputs
      = Except.ok (inputs.map (fun _ => none), initState r c)
    ∧ (initState r c).vac_json_data = none :=
  ⟨run_no_data inputs h _, rfl⟩

/-- C4 witness: the amended theorem applied to a concrete run. -/
theorem C4_no_payload_run_witness :
    (∀ i ∈ [noDataInput, noDataInput, noDataInput], i.dataAvailable = false)
    ∧ run (initState 0 50) [noDataInput, noDataInput, noDataInput]
        = Except.ok ([none, none, none], initState 0 50)
    ∧ (initState 0 50).vac_json_data = none := by
  refine ⟨by decide, ?_⟩
  exact (C4_no_payload_run 0 50 [noDataInput, noDataInput, noDataInput] (by decide))

/-! ### C5 -/

/-- C5: a parse error on cycle N leaves charger position (`_base`), robot
position (`_current`), calibration points and image size exactly at their
cycle-(N-1) values after `update` completes. -/
theorem C5_parse_error_preserves_attrs (s : CameraState) (inp : CycleInput)
    (h1 : inp.dataAvailable = true) (h2 : inp.fetchResult = FetchResult.parseError) :
    ∃ s', update s inp = Except.ok (none, s')
      ∧ s'.base = s.base ∧ s'.current = s.current
      ∧ s'.calibration_points = s.calibration_points
      ∧ s'.vac_img_data = s.vac_img_data := by
  refine ⟨{ s with vac_json_data := some "Error" }, ?_, rfl, rfl, rfl, rfl⟩
  simp [update, h1, h2]

/-- C5 witness: the theorem applied at a concrete state carrying nontrivial
attribute values. -/
theorem C5_parse_error_preserves_attrs_witness :
    parseErrorInput.dataAvailable = true
    ∧ parseErrorInput.fetchResult = FetchResult.parseError
    ∧ ∃ s', update { initState 0 50 with base := some (5, 6), current := some (7, 8) }
              parseErrorInput = Except.ok (none, s')
        ∧ s'.base = some (5, 6) ∧ s'.current = some (7, 8)
        ∧ s'.calibration_points = none ∧ s'.vac_img_data = none :=
  ⟨rfl, rfl,
    C5_parse_error_preserves_attrs
      { initState 0 50 with base := some (5, 6), current := some (7, 8) }
      parseErrorInput rfl rfl⟩

/-! ### C6 -/

/-- A cycle input advertising an existing snapshot file holding bitmap 42. -/
def snapshotAvailInput : CycleInput :=
  { noDataInput with snapshotFileExists := true, snapshotFileContent := Bitmap.rendered 42 }

/-- C6: once `_last_image` is bound, the fallback is total — it always
returns a bitmap — and its selection is deterministic: the in-memory
`_last_image` bitmap if one exists, else the snapshot file's bitmap when the
file exists (loaded and cached into `_last_image`), else a synthesized gray
800×600 placeholder. -/
theorem C6_fallback_total_deterministic (s : CameraState) (inp : CycleInput)
    (h : s.last_image ≠ none) :
    (∃ b s', empty_if_no_data s inp = Except.ok (b, s'))
    ∧ (∀ img, s.last_image = some (some img) →
        empty_if_no_data s inp = Except.ok (img, s))
    ∧ (s.last_image = some none → inp.snapshotFileExists = true →
        empty_if_no_data s inp
          = Except.ok (inp.snapshotFileContent,
              { s with last_image := some (some inp.snapshotFileContent) }))
    ∧ (s.last_image = some none → inp.snapshotFileExists = false →
        empty_if_no_data s inp = Except.ok (Bitmap.newRGB 800 600 "gray", s)) := by
  cases hli : s.last_image with
  | none => exact absurd hli h
  | some li =>
    cases li with
    | some img =>
      refine ⟨⟨img, s, by simp [empty_if_no_data, hli]⟩, ?_, ?_, ?_⟩
      · intro img' h'
        simp only [Option.some.injEq] at h'
        subst h'
        simp [empty_if_no_data, hli]
      · intro h' _
        simp at h'
      · intro h' _
        simp at h'
    | none =>
      cases hfe : inp.snapshotFileExists with
      | true =>
        refine ⟨⟨inp.snapshotFileContent,
            { s with last_image := some (some inp.snapshotFileContent) },
            by simp [empty_if_no_data, hli, hfe]⟩, ?_, ?_, ?_⟩
        · intro img' h'
          simp at h'
        · intro _ _
          simp [empty_if_no_data, hli, hfe]
        · intro _ h2
          simp at h2
      | false =>
        refine ⟨⟨Bitmap.newRGB 800 600 "gray", s,
            by simp [empty_if_no_data, hli, hfe]⟩, ?_, ?_, ?_⟩
        · intro img' h'
          simp at h'
        · intro _ h2
          simp at h2
        · intro _ _
          simp [empty_if_no_data, hli, hfe]

/-- C6 witness: the theorem applied at a concrete state with an empty cache
and no snapshot file, yielding the placeholder. -/
theorem C6_fallback_witness :
    (initState 0 50).last_image ≠ none
    ∧ empty_if_no_data (initState 0 50) noDataInput
        = Except.ok (Bitmap.newRGB 800 600 "gray", initState 0 50) :=
  ⟨by decide,
    (C6_fallback_total_deterministic (initState 0 50) noDataInput
      (by decide)).2.2.2 rfl rfl⟩

/-! ### C8 -/

/-- C8 (counterexample): the path the snapshot write saves the PNG to and
the path the fallback load reads it from are not the same path: the write
path is relative to the process working directory, the load path is
absolute under `/config`. -/
theorem C8_counterexample : snapshot_write_png_path ≠ snapshot_path := by
  decide

/-- C8 (amended): the write path is relative to the process working
directory while the load path is absolute under the `/config` install root;
prefixing the write path with `"/config/"` yields exactly the load path, so
the two operations address the same file precisely when the working
directory is `/config` — and in that case a fallback load with an empty
in-memory cache returns the bitmap stored in the snapshot file, caching it. -/
theorem C8_paths_resolve (s : CameraState) (inp : CycleInput) :
    ("/config/" ++ snapshot_write_png_path = snapshot_path)
    ∧ (s.last_image = some none → inp.snapshotFileExists = true →
        empty_if_no_data s inp
          = Except.ok (inp.snapshotFileContent,
              { s with last_image := some (some inp.snapshotFileContent) })) := by
  refine ⟨by decide, fun hli hfe => ?_⟩
  simp [empty_if_no_data, hli, hfe]

/-- C8 witness: the amended theorem applied at a concrete state with an
empty in-memory cache and an existing snapshot file. -/
theorem C8_paths_resolve_witness :
    (initState 0 50).last_image = some none
    ∧ snapshotAvailInput.snapshotFileExists = true
    ∧ empty_if_no_data (initState 0 50) snapshotAvailInput
        = Except.ok (Bitmap.rendered 42,
            { initState 0 50 with last_image := some (some (Bitmap.rendered 42)) }) :=
  ⟨rfl, rfl, (C8_paths_resolve (initState 0 50) snapshotAvailInput).2 rfl rfl⟩

/-! ### Characterization of a rendered cycle -/

/-- The state produced by an `update` cycle that renders a map: ingestion
outcome "Success", snapshot flag advanced iff the attempt fired, derived
attributes refreshed from the handler, bitmap and bytes cached, and
`vacuum_state` refreshed from the bus at the end. -/
def updatedStateRendered (s : CameraState) (inp : CycleInput) (b : Bitmap)
    (st : Option Bool) : CameraState :=
  { s with vac_json_data := some "Success",
           snapshot_taken :=
             (if !(st == some true) && isTerminal s.vacuum_state then
                (if inp.saveOk then some (some true) else some none)
              else some st),
           vac_json_id := inp.jsonId, base := inp.charger,
           current := inp.robot, vac_img_data := inp.imgSize,
           calibration_points := inp.calibData,
           last_image := some (some (Bitmap.rotated b s.image_rotate)),
           image := some (some (EncodedImage.png (Bitmap.rotated b s.image_rotate))),
           vacuum_state := inp.busStatus }

/-- On a cycle with data, a parsed non-None payload, a rendered bitmap and a
bound snapshot flag, `update` returns the rotated bitmap's PNG bytes and the
state characterized by `updatedStateRendered`. -/
theorem update_rendered (s : CameraState) (inp : CycleInput) (p : Payload)
    (b : Bitmap) (st : Option Bool)
    (h1 : inp.dataAvailable = true) (h2 : inp.fetchResult = FetchResult.ok (some p))
    (h3 : inp.renderResult = some b) (h4 : s.snapshot_taken = some st) :
    update s inp
      = Except.ok (some (EncodedImage.png (Bitmap.rotated b s.image_rotate)),
          updatedStateRendered s inp b st) := by
  by_cases hel : (!(st == some true) && isTerminal s.vacuum_state) = true
  · by_cases hso : inp.saveOk = true
    · simp [update, finishCycle, updatedStateRendered, h1, h2, h3, h4, hel, hso]
    · simp [update, finishCycle, updatedStateRendered, h1, h2, h3, h4, hel, hso]
  · simp [update, finishCycle, updatedStateRendered, h1, h2, h3, h4, hel, h4]

/-! ### C9 -/

/-- C9: on every cycle that renders a map, the bus status is read only at
the very end of the cycle (the post-state's `vacuum_state` is exactly the
bus client's answer), while the snapshot-eligibility test is computed from
the `vacuum_state` stored by a previous cycle together with the stored
flag — it does not depend on the status fetched in the same cycle. -/
theorem C9_status_read_after_snapshot_decision (s : CameraState)
    (inp : CycleInput) (p : Payload) (b : Bitmap) (st : Option Bool)
    (h1 : inp.dataAvailable = true)
    (h2 : inp.fetchResult = FetchResult.ok (some p))
    (h3 : inp.renderResult = some b) (h4 : s.snapshot_taken = some st) :
    ∃ out s', update s inp = Except.ok (out, s')
      ∧ s'.vacuum_state = inp.busStatus
      ∧ s'.snapshot_taken =
          (if snapshotAttempted s inp then
             (if inp.saveOk then some (some true) else some none)
           else s.snapshot_taken)
      ∧ snapshotAttempted s inp = (!(st == some true) && isTerminal s.vacuum_state)
      ∧ (∀ q, snapshotAttempted s { inp with busStatus := q }
            = snapshotAttempted s inp) := by
  have hAtt : snapshotAttempted s inp
      = (!(st == some true) && isTerminal s.vacuum_state) := by
    simp [snapshotAttempted, h1, h2, h3, h4]
  refine ⟨some (EncodedImage.png (Bitmap.rotated b s.image_rotate)),
          updatedStateRendered s inp b st,
          update_rendered s inp p b st h1 h2 h3 h4, rfl, ?_, hAtt, ?_⟩
  · rw [hAtt]
    simp only [updatedStateRendered]
    by_cases hel : (!(st == some true) && isTerminal s.vacuum_state) = true
    · simp [hel]
    · simp only [Bool.not_eq_true] at hel
      simp [hel, h4]
  · intro q
    simp [snapshotAttempted]

/-- C9 witness: the theorem applied at a concrete state whose stored status
is "idle" while the bus reports "docked" this cycle: the eligibility test
fires from the stored status, and the post-state carries the bus answer. -/
theorem C9_witness :
    (renderInput 5 true).dataAvailable = true
    ∧ (renderInput 5 true).fetchResult = FetchResult.ok (some "payload")
    ∧ (renderInput 5 true).renderResult = some (Bitmap.rendered 5)
    ∧ ({ initState 0 50 with vacuum_state := some "idle" } : CameraState).snapshot_taken
        = some (some false)
    ∧ ∃ out s', update { initState 0 50 with vacuum_state := some "idle" } (renderInput 5 true)
          = Except.ok (out, s')
        ∧ s'.vacuum_state = (renderInput 5 true).busStatus
        ∧ s'.snapshot_taken =
            (if snapshotAttempted { initState 0 50 with vacuum_state := some "idle" } (renderInput 5 true) then
               (if (renderInput 5 true).saveOk then some (some true) else some none)
             else ({ initState 0 50 with vacuum_state := some "idle" } : CameraState).snapshot_taken)
        ∧ snapshotAttempted { initState 0 50 with vacuum_state := some "idle" } (renderInput 5 true)
            = (!((some false : Option Bool) == some true)
                && isTerminal ({ initState 0 50 with vacuum_state := some "idle" } : CameraState).vacuum_state)
        ∧ (∀ q, snapshotAttempted { initState 0 50 with vacuum_state := some "idle" }
                { (renderInput 5 true) with busStatus := q }
              = snapshotAttempted { initState 0 50 with vacuum_state := some "idle" } (renderInput 5 true)) :=
  ⟨rfl, rfl, rfl, rfl,
    C9_status_read_after_snapshot_decision
      { initState 0 50 with vacuum_state := some "idle" }
      (renderInput 5 true) "payload" (Bitmap.rendered 5) (some false)
      rfl rfl rfl rfl⟩

/-! ### C10 -/

/-- C10: `__init__` calls `update()` before `_snapshot_taken` and
`_last_image` (and `_image`) are ever assigned, so if data is available and
the payload parses to a non-None value, the constructor's first `update`
raises `AttributeError` — at the snapshot-eligibility check when a bitmap
was rendered, or inside the fallback otherwise; consequently the first
`update` completes only when no data is available or the payload fails to
parse. -/
theorem C10_first_update_raises (r c : Int) (inp : CycleInput) :
    (∀ p, inp.dataAvailable = true → inp.fetchResult = FetchResult.ok (some p) →
        update (preInitState r c) inp = Except.error "AttributeError")
    ∧ (∀ out s', update (preInitState r c) inp = Except.ok (out, s') →
        inp.dataAvailable = false ∨ inp.fetchResult = FetchResult.parseError) := by
  constructor
  · intro p h1 h2
    cases hrr : inp.renderResult with
    | some b => simp [update, h1, h2, hrr, preInitState]
    | none => simp [update, h1, h2, hrr, empty_if_no_data, preInitState]
  · intro out s' h
    cases hda : inp.dataAvailable with
    | false => exact Or.inl rfl
    | true =>
      cases hfr : inp.fetchResult with
      | parseError => exact Or.inr rfl
      | ok pj =>
        exfalso
        cases pj with
        | none => simp [update, hda, hfr, preInitState] at h
        | some p =>
          cases hrr : inp.renderResult with
          | some b => simp [update, hda, hfr, hrr, preInitState] at h
          | none => simp [update, hda, hfr, hrr, empty_if_no_data, preInitState] at h

/-- C10 witness: the theorem applied to a construction whose first cycle has
data available and a renderable payload. -/
theorem C10_first_update_raises_witness :
    (renderInput 1 true).dataAvailable = true
    ∧ (renderInput 1 true).fetchResult = FetchResult.ok (some "payload")
    ∧ update (preInitState 0 50) (renderInput 1 true) = Except.error "AttributeError" :=
  ⟨rfl, rfl, (C10_first_update_raises 0 50 (renderInput 1 true)).1 "payload" rfl rfl⟩

/-! ### C1 -/

/-- C1 (code evaluated at the failing input): a three-cycle trace from a
freshly constructed pipeline.  Cycle 1 renders while the stored status is
still unset, so no snapshot attempt fires; the bus then reports "docked".
Cycle 2 renders with stored status "docked": the snapshot attempt fires,
the write raises `IOError`, and `update` sets `_snapshot_taken` to Python
`None` — clearing the flag.  Cycle 3 therefore fires a second snapshot
write attempt, contradicting both the claim's monotonic flag / at-most-one
attempt and the code's own warning "no snapshot available till restart". -/
theorem C1_code_bug_eval :
    ∃ s1 s2,
      (∃ o1, update (initState 0 50) (renderInput 1 true) = Except.ok (o1, s1))
      ∧ snapshotAttempted (initState 0 50) (renderInput 1 true) = false
      ∧ s1.vacuum_state = some "docked"
      ∧ snapshotAttempted s1 (renderInput 2 false) = true
      ∧ (∃ o2, update s1 (renderInput 2 false) = Except.ok (o2, s2))
      ∧ s2.snapshot_taken = some none
      ∧ snapshotAttempted s2 (renderInput 3 true) = true := by
  refine ⟨_, _, ⟨_, rfl⟩, by decide, ?_, ?_, ⟨_, rfl⟩, ?_, ?_⟩ <;> decide

/-! ### C7 -/

/-- The fallback never touches the derived display attributes. -/
theorem empty_if_no_data_preserves_attrs (s : CameraState) (inp : CycleInput)
    (pil : Bitmap) (s1 : CameraState)
    (hf : empty_if_no_data s inp = Except.ok (pil, s1)) :
    s1.vac_json_id = s.vac_json_id ∧ s1.base = s.base ∧ s1.current = s.current
      ∧ s1.vac_img_data = s.vac_img_data
      ∧ s1.calibration_points = s.calibration_points := by
  cases hli : s.last_image with
  | none => simp [empty_if_no_data, hli] at hf
  | some li =>
    cases li with
    | some img =>
      simp only [empty_if_no_data, hli, Except.ok.injEq, Prod.mk.injEq] at hf
      obtain ⟨-, hs⟩ := hf
      subst hs
      exact ⟨rfl, rfl, rfl, rfl, rfl⟩
    | none =>
      simp only [empty_if_no_data, hli] at hf
      split at hf
      · simp only [Except.ok.injEq, Prod.mk.injEq] at hf
        obtain ⟨-, hs⟩ := hf
        subst hs
        exact ⟨rfl, rfl, rfl, rfl, rfl⟩
      · simp only [Except.ok.injEq, Prod.mk.injEq] at hf
        obtain ⟨-, hs⟩ := hf
        subst hs
        exact ⟨rfl, rfl, rfl, rfl, rfl⟩

/-- C7: in every completing `update` cycle the five display attributes
(map-data id, charger position, robot position, image size, calibration
points) move together: on a cycle where the renderer produced a bitmap they
are all set to the handler's values; on every other completing cycle
(no data, parse error, None payload, fallback) they are all left unchanged. -/
theorem C7_attrs_atomic (s : CameraState) (inp : CycleInput)
    (out : Option EncodedImage) (s' : CameraState)
    (h : update s inp = Except.ok (out, s')) :
    (renderedCycle inp = true →
      s'.vac_json_id = inp.jsonId ∧ s'.base = inp.charger
        ∧ s'.current = inp.robot ∧ s'.vac_img_data = inp.imgSize
        ∧ s'.calibration_points = inp.calibData)
    ∧ (renderedCycle inp = false →
      s'.vac_json_id = s.vac_json_id ∧ s'.base = s.base
        ∧ s'.current = s.current ∧ s'.vac_img_data = s.vac_img_data
        ∧ s'.calibration_points = s.calibration_points) := by
  cases hda : inp.dataAvailable with
  | false =>
    rw [update_no_data s inp hda] at h
    simp only [Except.ok.injEq, Prod.mk.injEq] at h
    obtain ⟨-, hs⟩ := h
    subst hs
    constructor
    · intro hr
      rw [renderedCycle, hda] at hr
      simp at hr
    · intro _
      exact ⟨rfl, rfl, rfl, rfl, rfl⟩
  | true =>
    cases hfr : inp.fetchResult with
    | parseError =>
      rw [update_parse_error s inp hda hfr] at h
      simp only [Except.ok.injEq, Prod.mk.injEq] at h
      obtain ⟨-, hs⟩ := h
      subst hs
      constructor
      · intro hr
        rw [renderedCycle, hda, hfr] at hr
        simp at hr
      · intro _
        exact ⟨rfl, rfl, rfl, rfl, rfl⟩
    | ok pj =>
      cases pj with
      | none =>
        have hr0 : renderedCycle inp = false := by
          rw [renderedCycle, hda, hfr]
          simp
        cases him : s.image with
        | none => simp [update, hda, hfr, him] at h
        | some img =>
          simp only [update, hda, hfr, him, if_true] at h
          simp only [Except.ok.injEq, Prod.mk.injEq] at h
          obtain ⟨-, hs⟩ := h
          subst hs
          refine ⟨fun hr => absurd hr (by rw [hr0]; simp), fun _ => ?_⟩
          exact ⟨rfl, rfl, rfl, rfl, rfl⟩
      | some p =>
        cases hrr : inp.renderResult with
        | none =>
          have hr0 : renderedCycle inp = false := by
            rw [renderedCycle, hda, hfr, hrr]
            simp
          cases hf : empty_if_no_data { s with vac_json_data := some "Success" } inp with
          | error e => simp [update, hda, hfr, hrr, hf] at h
          | ok pr =>
            obtain ⟨pil, s1⟩ := pr
            have hpres := empty_if_no_data_preserves_attrs _ inp pil s1 hf
            simp only [update, hda, hfr, hrr, hf, if_true] at h
            simp only [finishCycle, Except.ok.injEq, Prod.mk.injEq] at h
            obtain ⟨-, hs⟩ := h
            subst hs
            refine ⟨fun hr => absurd hr (by rw [hr0]; simp), fun _ => ?_⟩
            simpa using hpres
        | some b =>
          have hr1 : renderedCycle inp = true := by
            rw [renderedCycle, hda, hfr, hrr]
            simp
          cases hst : s.snapshot_taken with
          | none => simp [update, hda, hfr, hrr, hst] at h
          | some st =>
            rw [update_rendered s inp p b st hda hfr hrr hst] at h
            simp only [Except.ok.injEq, Prod.mk.injEq] at h
            obtain ⟨-, hs⟩ := h
            subst hs
            refine ⟨fun _ => ⟨rfl, rfl, rfl, rfl, rfl⟩,
                    fun hr => absurd hr1 (by rw [hr]; simp)⟩

/-- C7 witness: the theorem applied to a concrete rendered cycle — the
attributes all take the handler's values. -/
theorem C7_attrs_atomic_witness :
    ∃ out s', update (initState 0 50) (renderInput 4 true) = Except.ok (out, s')
      ∧ (renderedCycle (renderInput 4 true) = true →
          s'.vac_json_id = (renderInput 4 true).jsonId
            ∧ s'.base = (renderInput 4 true).charger
            ∧ s'.current = (renderInput 4 true).robot
            ∧ s'.vac_img_data = (renderInput 4 true).imgSize
            ∧ s'.calibration_points = (renderInput 4 true).calibData)
      ∧ renderedCycle (renderInput 4 true) = true := by
  refine ⟨_, _, rfl, fun hr =>
    (C7_attrs_atomic (initState 0 50) (renderInput 4 true) _ _ rfl).1 hr, by decide⟩
